import Mathlib

/-!
# Verification of the Crypto_RAG retrieval-and-scoring pipeline

Shallow embedding of the repository's core components:

* `src/retrieval.py` — the `Source` record and `UnifiedRetriever.retrieve_all`
  with its synthetic ("mock") fallback corpus;
* `src/evaluator.py` — the `ArgumentEvaluator` rule-based sub-scores, the
  external-model response parsing, the 0.4/0.6 blending, and feedback
  generation;
* `src/embeddings.py` — the `EmbeddingManager` similarity index:
  `create_index`, `search_similar`, `load_index`.

Modelling conventions:

* Python `float` is modelled as `ℚ` (exact arithmetic; decimal literals in the
  source are exactly representable).
* Python `str` operations are modelled over `List Char`; lexicon matching,
  the word-boundary regexes, and the label-number regexes of the source are
  implemented character-by-character below.  Character classes (`\w`, `\d`,
  `\s`, `str.lower`) are modelled by Lean's ASCII `Char` predicates.
* External collaborators (the embedding model, the evidence providers, the
  OpenAI scoring call) are passed in as function / `Option` parameters; the
  faiss flat inner-product index is modelled by exact top-k selection with
  its documented padding behaviour (`-1` labels when `k` exceeds the corpus).
* Python exceptions are modelled with explicit result values
  (`Option`-style error components on the relevant operations).
-/

/-! ## Text primitives: `List Char` models of the Python `str` operations -/

/-- Character-list prefix test (`needle` matches at the head of the second
argument), used to model substring search. -/
def leadMatch : List Char → List Char → Bool
  | [], _ => true
  | _ :: _, [] => false
  | p :: ps, c :: cs => p == c && leadMatch ps cs

/-- Models the Python substring operator `pat in hay`. -/
def containsSub (pat : List Char) : List Char → Bool
  | [] => leadMatch pat []
  | c :: cs => leadMatch pat (c :: cs) || containsSub pat cs

/-- Models `needle in hay` for a literal needle against a prepared haystack. -/
def inStr (needle : String) (hay : List Char) : Bool :=
  containsSub needle.toList hay

/-- Models Python `s.lower()` (ASCII case folding). -/
def lowerStr (s : String) : List Char :=
  s.toList.map Char.toLower

/-- Models Python `s.split(sep)` for a single-character separator: splits at
every occurrence, keeping empty pieces, and yields `[[]]` on the empty
string. -/
def splitChar (sep : Char) : List Char → List (List Char)
  | [] => [[]]
  | c :: cs =>
    match splitChar sep cs with
    | [] => [[]]
    | w :: ws => if c == sep then [] :: w :: ws else (c :: w) :: ws

/-- Helper for `pyWordCount`: counts maximal non-whitespace runs, carrying a
flag recording whether the scan is currently inside a word. -/
def wordCountAux : Bool → List Char → Nat
  | _, [] => 0
  | inw, c :: cs =>
    if c.isWhitespace then wordCountAux false cs
    else (if inw then 0 else 1) + wordCountAux true cs

/-- Models `len(s.split())` in Python: the number of whitespace-separated
words of `s`. -/
def pyWordCount (l : List Char) : Nat :=
  wordCountAux false l

/-- Models the regex word-character class `\w` (ASCII). -/
def isWordChar (c : Char) : Bool :=
  c.isAlphanum || c == '_'

/-- Whether the character at position `j` exists and is a word character;
positions past the end count as non-word, as in the regex semantics. -/
def wordAt (l : List Char) (j : Nat) : Bool :=
  match l[j]? with
  | some c => isWordChar c
  | none => false

/-- Models the regex boundary assertion `\b` at position `j` (between
characters `j - 1` and `j`): exactly one side is a word character. -/
def isBoundary (l : List Char) (j : Nat) : Bool :=
  (if j = 0 then false else wordAt l (j - 1)) != wordAt l j

/-- Whether `pat` (a word made of word characters) occurs in `l` bracketed by
word boundaries: models `re.search(r'\b(pat)\b', l)` presence for one
alternative. -/
def hasBoundedWordAt (l pat : List Char) (i : Nat) : Bool :=
  isBoundary l i && leadMatch pat (l.drop i) && isBoundary l (i + pat.length)

/-- Presence of any of the alternatives of a `\b(w1|w2|...)\b` regex in `l`. -/
def hasBoundedWord (l : List Char) (pats : List String) : Bool :=
  pats.any fun p => (List.range (l.length + 1)).any fun i =>
    hasBoundedWordAt l p.toList i

/-- Length of the run of ASCII digits starting at position `i`. -/
def digitRunAt (l : List Char) (i : Nat) : Nat :=
  ((l.drop i).takeWhile Char.isDigit).length

/-- The tail `%?\b` of the numeric-token regex, tried at position `j` (the
position just after the digits): either a boundary directly, or a percent
sign followed by a boundary. -/
def numTail (l : List Char) (j : Nat) : Bool :=
  isBoundary l j || (l[j]? == some '%' && isBoundary l (j + 1))

/-- Presence of a match of `re.search(r'\b\d+(?:\.\d+)?%?\b', s)`: some start
position with a boundary, one or more digits, an optional fraction part, an
optional percent sign, and a closing boundary, with full backtracking over
the optional parts. -/
def hasNumberToken (l : List Char) : Bool :=
  (List.range (l.length + 1)).any fun i =>
    isBoundary l i &&
    (let dr := digitRunAt l i
     (List.range dr).any fun k =>
       let j := i + k + 1
       numTail l j ||
       (l[j]? == some '.' &&
        (let dr2 := digitRunAt l (j + 1)
         (List.range dr2).any fun k2 => numTail l (j + 1 + k2 + 1))))

/-- Numeric value of a list of ASCII digits. -/
def natOfDigits (l : List Char) : Nat :=
  l.foldl (fun n c => n * 10 + (c.toNat - '0'.toNat)) 0

/-- Greedy match of `\d+\.?\d*` at position `i` of `l`, returning the value
`float(...)` would produce, exactly (so `"5."` parses as `5`). -/
def parseNumAt (l : List Char) (i : Nat) : Option ℚ :=
  let dr := digitRunAt l i
  if dr = 0 then none
  else
    let intPart : ℚ := natOfDigits ((l.drop i).take dr)
    let j := i + dr
    if l[j]? == some '.' then
      let dr2 := digitRunAt l (j + 1)
      some (intPart + (natOfDigits ((l.drop (j + 1)).take dr2) : ℚ) / 10 ^ dr2)
    else some intPart

/-- Length of the run of whitespace characters starting at position `i`. -/
def wsRunAt (l : List Char) (i : Nat) : Nat :=
  ((l.drop i).takeWhile Char.isWhitespace).length

/-- Models `re.search(r'label\s*(\d+\.?\d*)', text)`: the leftmost position
where the label matches is followed by optional whitespace and a number;
returns the captured number of the first successful position. -/
def searchLabelNum (l : List Char) (label : String) : Option ℚ :=
  (List.range (l.length + 1)).findSome? fun i =>
    if leadMatch label.toList (l.drop i) then
      let j := i + label.toList.length
      parseNumAt l (j + wsRunAt l j)
    else none

/-- Models Python `s.strip()` on a character list. -/
def trimChars (l : List Char) : List Char :=
  ((l.dropWhile Char.isWhitespace).reverse.dropWhile Char.isWhitespace).reverse

/-- Models `re.search(r'Feedback:\s*(.+)', text, re.DOTALL)` followed by
`.group(1).strip()`: the first occurrence of the label with a non-empty
remainder yields that remainder stripped of surrounding whitespace. -/
def searchFeedback (l : List Char) : Option (List Char) :=
  (List.range (l.length + 1)).findSome? fun i =>
    if leadMatch "Feedback:".toList (l.drop i) then
      let r := l.drop (i + "Feedback:".toList.length)
      if r.isEmpty then none else some (trimChars r)
    else none

/-! ## Data model (`retrieval.Source`, `argument_generator.Argument`,
`evaluator.EvaluationMetrics`) -/

/-- The `Source` dataclass of `src/retrieval.py`: one retrieved evidence
snippet plus metadata.  The spec's `EvidenceRecord` with `sourceKind`
rendered as the code's `source_type` string (the spec's `synthetic` kind is
the code's `"mock"`). -/
structure Source where
  url : String
  title : String
  content : String
  source_type : String
  timestamp : String
  relevance_score : ℚ
deriving DecidableEq, Repr

/-- The `Argument` dataclass of `src/argument_generator.py`. -/
structure Argument where
  stance : String
  content : String
  sources : List Source
  confidence_score : ℚ
  citations : List String
deriving DecidableEq, Repr

/-- The `EvaluationMetrics` dataclass of `src/evaluator.py`. -/
structure EvaluationMetrics where
  clarity_score : ℚ
  logic_score : ℚ
  evidence_score : ℚ
  persuasiveness_score : ℚ
  overall_score : ℚ
  feedback : String
deriving DecidableEq, Repr

/-! ## `src/retrieval.py`: `UnifiedRetriever` -/

/-- `UnifiedRetriever._create_mock_sources`: the fixed two-record synthetic
fallback corpus, tagged `source_type="mock"` (the spec's `synthetic`). -/
def create_mock_sources (query : String) : List Source :=
  [{ url := "https://example.com/mock1"
     title := "Analysis of " ++ query ++ " trends and implications"
     content := "Recent analysis shows that " ++ query ++ " presents both opportunities and challenges. Market experts suggest careful consideration of various factors including regulatory frameworks, technological developments, and market dynamics."
     source_type := "mock"
     timestamp := "2024-01-01"
     relevance_score := 0.8 },
   { url := "https://example.com/mock2"
     title := "Expert opinions on " ++ query ++ " future outlook"
     content := "Industry experts have mixed views on " ++ query ++ ". Some believe it represents significant innovation potential, while others express concerns about volatility and regulatory uncertainty. Long-term implications remain to be seen."
     source_type := "mock"
     timestamp := "2024-01-01"
     relevance_score := 0.7 }]

/-- `UnifiedRetriever.retrieve_all`.  The three retrievers are external
collaborators (each swallows its own failures, contributing an empty list),
passed here as function parameters.  Their outputs are concatenated in the
fixed news/reddit/blog order; the mock fallback replaces an empty
concatenation. -/
def retrieve_all (search_news search_reddit search_blogs : String → Nat → List Source)
    (query : String) (max_per_source : Nat) : List Source :=
  let all_sources :=
    search_news query max_per_source ++
    search_reddit query max_per_source ++
    search_blogs query max_per_source
  if all_sources.isEmpty then create_mock_sources query else all_sources

/-! ## `src/evaluator.py`: `ArgumentEvaluator` -/

/-- `ArgumentEvaluator._evaluate_clarity`: base 0.5, +0.2 for average
sentence length in [10, 25] words, +0.2 for a transition word, +0.1 for a
comma, capped at 1. -/
def evaluate_clarity (content : String) : ℚ :=
  let sentences := splitChar '.' content.toList
  let avg_sentence_length : ℚ :=
    ((sentences.map pyWordCount).sum : ℚ) / (max sentences.length 1 : Nat)
  let transition_words := ["however", "furthermore", "moreover", "therefore",
    "consequently", "additionally"]
  let lowered := lowerStr content
  let score : ℚ :=
    0.5 + (if 10 ≤ avg_sentence_length ∧ avg_sentence_length ≤ 25 then 0.2 else 0)
        + (if transition_words.any fun w => inStr w lowered then 0.2 else 0)
        + (if 0 < content.toList.count ',' then 0.1 else 0)
  min score 1

/-- `ArgumentEvaluator._evaluate_logic`: base 0.4, + min(0.1 × number of
logical indicators present, 0.4), +0.2 for an ordinal marker
(`\b(first|second|third|finally)\b`), capped at 1. -/
def evaluate_logic (content : String) : ℚ :=
  let logical_indicators := ["because", "since", "therefore", "thus",
    "consequently", "as a result"]
  let lowered := lowerStr content
  let logical_count := (logical_indicators.filter fun w => inStr w lowered).length
  let score : ℚ :=
    0.4 + min ((logical_count : ℚ) * 0.1) 0.4
        + (if hasBoundedWord lowered ["first", "second", "third", "finally"]
           then 0.2 else 0)
  min score 1

/-- `ArgumentEvaluator._evaluate_evidence`: base 0.3, + min(0.15 × citation
count, 0.4), +0.2 for "according to" / "research shows", +0.1 for a numeric
token (`\b\d+(?:\.\d+)?%?\b` on the raw content), capped at 1. -/
def evaluate_evidence (argument : Argument) : ℚ :=
  let citation_count := argument.citations.length
  let lowered := lowerStr argument.content
  let score : ℚ :=
    0.3 + min ((citation_count : ℚ) * 0.15) 0.4
        + (if inStr "according to" lowered || inStr "research shows" lowered
           then 0.2 else 0)
        + (if hasNumberToken argument.content.toList then 0.1 else 0)
  min score 1

/-- `ArgumentEvaluator._evaluate_persuasiveness`: base 0.4, + min(0.05 ×
number of persuasive words present, 0.3), +0.1 for an exclamation mark,
+0.2 for a rhetorical pattern, capped at 1. -/
def evaluate_persuasiveness (content : String) : ℚ :=
  let persuasive_words := ["significant", "crucial", "essential", "important",
    "compelling", "overwhelming"]
  let lowered := lowerStr content
  let persuasive_count := (persuasive_words.filter fun w => inStr w lowered).length
  let rhetorical_patterns := ["why should", "imagine if", "consider this"]
  let score : ℚ :=
    0.4 + min ((persuasive_count : ℚ) * 0.05) 0.3
        + (if (content.toList.getLast? == some '!') || inStr "!" content.toList
           then 0.1 else 0)
        + (if rhetorical_patterns.any fun p => inStr p lowered then 0.2 else 0)
  min score 1

/-- `ArgumentEvaluator._generate_rule_based_feedback`: one fixed improvement
sentence per dimension scoring below 0.6, in the fixed dimension order, or a
single positive-summary sentence when no dimension is below 0.6. -/
def generate_rule_based_feedback (clarity logic evidence persuasiveness : ℚ) : String :=
  let feedback_parts :=
    (if clarity < 0.6 then
      ["Consider improving clarity with shorter sentences and clearer transitions."]
     else []) ++
    (if logic < 0.6 then
      ["Strengthen logical flow with more explicit reasoning connections."]
     else []) ++
    (if evidence < 0.6 then
      ["Add more citations and specific evidence to support claims."]
     else []) ++
    (if persuasiveness < 0.6 then
      ["Enhance persuasiveness with stronger language and rhetorical techniques."]
     else [])
  let feedback_parts :=
    if feedback_parts.isEmpty then
      ["Strong argument with good balance across all criteria."]
    else feedback_parts
  String.intercalate " " feedback_parts

/-- `ArgumentEvaluator._rule_based_evaluation`: the four heuristic
sub-scores, their arithmetic mean as `overall_score`, and the template
feedback. -/
def rule_based_evaluation (argument : Argument) : EvaluationMetrics :=
  let clarity_score := evaluate_clarity argument.content
  let logic_score := evaluate_logic argument.content
  let evidence_score := evaluate_evidence argument
  let persuasiveness_score := evaluate_persuasiveness argument.content
  { clarity_score := clarity_score
    logic_score := logic_score
    evidence_score := evidence_score
    persuasiveness_score := persuasiveness_score
    overall_score := (clarity_score + logic_score + evidence_score +
      persuasiveness_score) / 4
    feedback := generate_rule_based_feedback clarity_score logic_score
      evidence_score persuasiveness_score }

/-- `ArgumentEvaluator._parse_llm_evaluation`: each labelled decimal number
is extracted by `re.search(r'Label:\s*(\d+\.?\d*)', ...)` and defaults to
0.5 when absent; the feedback text defaults to "No feedback available";
`overall_score` is the mean of the four extracted sub-scores. -/
def parse_llm_evaluation (evaluation_text : String) : EvaluationMetrics :=
  let l := evaluation_text.toList
  let clarity_score := (searchLabelNum l "Clarity:").getD 0.5
  let logic_score := (searchLabelNum l "Logic:").getD 0.5
  let evidence_score := (searchLabelNum l "Evidence:").getD 0.5
  let persuasiveness_score := (searchLabelNum l "Persuasiveness:").getD 0.5
  let feedback :=
    match searchFeedback l with
    | some f => String.mk f
    | none => "No feedback available"
  { clarity_score := clarity_score
    logic_score := logic_score
    evidence_score := evidence_score
    persuasiveness_score := persuasiveness_score
    overall_score := (clarity_score + logic_score + evidence_score +
      persuasiveness_score) / 4
    feedback := feedback }

/-- `ArgumentEvaluator._llm_evaluation`: the OpenAI chat call is an external
collaborator, modelled by `llm_response` (`none` models a raised exception in
the call).  On failure the `except` branch returns the rule-based metrics;
on success the response text is parsed. -/
def llm_evaluation (llm_response : Option String) (argument : Argument) :
    EvaluationMetrics :=
  match llm_response with
  | none => rule_based_evaluation argument
  | some evaluation_text => parse_llm_evaluation evaluation_text

/-- `ArgumentEvaluator._combine_scores`: fixed-weight 0.4/0.6 combination of
each sub-score and of `overall_score`; feedback taken from the model-based
result. -/
def combine_scores (rule_based llm_based : EvaluationMetrics) :
    EvaluationMetrics :=
  let weight_rule : ℚ := 0.4
  let weight_llm : ℚ := 0.6
  { clarity_score := weight_rule * rule_based.clarity_score +
      weight_llm * llm_based.clarity_score
    logic_score := weight_rule * rule_based.logic_score +
      weight_llm * llm_based.logic_score
    evidence_score := weight_rule * rule_based.evidence_score +
      weight_llm * llm_based.evidence_score
    persuasiveness_score := weight_rule * rule_based.persuasiveness_score +
      weight_llm * llm_based.persuasiveness_score
    overall_score := weight_rule * rule_based.overall_score +
      weight_llm * llm_based.overall_score
    feedback := llm_based.feedback }

/-- `ArgumentEvaluator.evaluate_argument`.  `api_key` is the truthiness of
`self.api_key`; `llm_response` carries the external scoring collaborator's
raw answer (`none` for a call failure), consulted only when a key is
configured. -/
def evaluate_argument (api_key : Bool) (llm_response : Option String)
    (argument : Argument) : EvaluationMetrics :=
  let rule_based_score := rule_based_evaluation argument
  if api_key then
    combine_scores rule_based_score (llm_evaluation llm_response argument)
  else
    rule_based_score

/-! ## `src/embeddings.py`: `EmbeddingManager` -/

/-- `Config.RETRIEVAL_TOP_K` from `config.py`. -/
def RETRIEVAL_TOP_K : Nat := 10

/-- The mutable state of an `EmbeddingManager`: the optional faiss index
(modelled by its stored vectors, in insertion order) and the parallel
`source_metadata` list.  `index = none` models `self.index is None`. -/
structure EmbState where
  index : Option (List (List ℚ))
  source_metadata : List Source
deriving DecidableEq, Repr

/-- The state right after `__init__`: no index, empty metadata. -/
def initState : EmbState :=
  { index := none, source_metadata := [] }

/-- Inner product of two vectors (`faiss.IndexFlatIP` similarity). -/
def dotp (a b : List ℚ) : ℚ :=
  (List.zipWith (· * ·) a b).sum

/-- The single-precision maximum `FLT_MAX = (2 - 2⁻²³)·2¹²⁷`, exactly. -/
def FLT_MAX : ℚ := 340282346638528859811704183484516925440

/-- The ranking order of faiss inner-product search results: strictly larger
similarity first, ties broken by smaller (earlier-inserted) index. -/
def faissLE (a b : ℚ × Int) : Prop :=
  b.1 < a.1 ∨ (a.1 = b.1 ∧ a.2 ≤ b.2)

instance faissLE_decidable : DecidableRel faissLE := fun a b => by
  unfold faissLE; infer_instance

instance faissLE_total : IsTotal (ℚ × Int) faissLE := ⟨by
  intro a b
  rcases lt_trichotomy a.1 b.1 with h | h | h
  · exact Or.inr (Or.inl h)
  · rcases le_total a.2 b.2 with h2 | h2
    · exact Or.inl (Or.inr ⟨h, h2⟩)
    · exact Or.inr (Or.inr ⟨h.symm, h2⟩)
  · exact Or.inl (Or.inl h)⟩

instance faissLE_trans : IsTrans (ℚ × Int) faissLE := ⟨by
  intro a b c hab hbc
  rcases hab with h | ⟨he, hi⟩
  · rcases hbc with h2 | ⟨he2, _⟩
    · exact Or.inl (h2.trans h)
    · exact Or.inl (he2 ▸ h)
  · rcases hbc with h2 | ⟨he2, hi2⟩
    · exact Or.inl (he ▸ h2)
    · exact Or.inr ⟨he.trans he2, hi.trans hi2⟩⟩

/-- Model of `faiss.IndexFlatIP.search` over stored vectors `xs` with query
`q` and `k` requested neighbours: exact search returns one `(score, id)` row
sorted by decreasing inner product (ties by insertion id); when `k` exceeds
the number of stored vectors, faiss pads the row with id `-1` and similarity
`-FLT_MAX`. -/
def faissSearch (xs : List (List ℚ)) (q : List ℚ) (k : Nat) : List (ℚ × Int) :=
  let scored := xs.enum.map fun p => (dotp q p.2, (p.1 : Int))
  let ranked := (List.insertionSort faissLE scored).take k
  ranked ++ List.replicate (k - ranked.length) (-FLT_MAX, -1)

instance : Inhabited Source :=
  ⟨{ url := "", title := "", content := "", source_type := "",
     timestamp := "", relevance_score := 0 }⟩

/-- Python list indexing as used on `self.source_metadata[idx]`: a negative
index counts from the end of the list. -/
def pyIndex (l : List Source) (i : Int) : Source :=
  if 0 ≤ i then l.getD i.toNat default
  else l.getD (l.length - (-i).toNat) default

/-- `EmbeddingManager.create_index`: embeds `title + " " + content` of every
source through the external embedding collaborator `embed`
(`encode_text`), normalizes every row with the external `faiss.normalize_L2`
(modelled by `normalize_L2`), and replaces the index and the metadata
wholesale. -/
def create_index (embed : List String → List (List ℚ))
    (normalize_L2 : List ℚ → List ℚ) (_st : EmbState) (sources : List Source) :
    EmbState :=
  let texts := sources.map fun source => source.title ++ " " ++ source.content
  let embeddings := embed texts
  { index := some (embeddings.map normalize_L2), source_metadata := sources }

/-- `EmbeddingManager.search_similar`.  Returns `[]` when no index exists;
otherwise embeds and normalizes the query, runs the faiss search with
`top_k or Config.RETRIEVAL_TOP_K` (`none`/`0` fall back to the default, as
Python truthiness does), and collects `source_metadata[idx]` with its
`relevance_score` overwritten for every returned `idx` passing the
`idx < len(self.source_metadata)` guard.  The returned entries alias the
stored records in Python; the model copies each record with the score it is
assigned at append time. -/
def search_similar (embed : List String → List (List ℚ))
    (normalize_L2 : List ℚ → List ℚ) (st : EmbState) (query : String)
    (top_k : Option Nat) : List Source :=
  match st.index with
  | none => []
  | some xs =>
    let k := match top_k with
      | none => RETRIEVAL_TOP_K
      | some k => if k = 0 then RETRIEVAL_TOP_K else k
    let query_embedding := normalize_L2 ((embed [query]).headD [])
    let rows := faissSearch xs query_embedding k
    rows.foldl
      (fun results p =>
        if p.2 < (st.source_metadata.length : Int) then
          results ++ [{ pyIndex st.source_metadata p.2 with
                        relevance_score := p.1 }]
        else results)
      []

/-- Outcome of reading one persisted component from a load target: the file
is absent, unreadable, or intact with the stored payload.  Which Python
exception an absent file produces depends on the reader: the builtin `open`
raises `FileNotFoundError`, while `faiss.read_index` raises a faiss
`RuntimeError` for a missing file just as for a corrupt one. -/
inductive FileRead (α : Type) where
  | missing
  | corrupt
  | ok (payload : α)
deriving DecidableEq

/-- A persistence target for `load_index`: the `.index` file and the
`_metadata.pkl` file. -/
structure LoadTarget where
  indexFile : FileRead (List (List ℚ))
  metadataFile : FileRead (List Source)

/-- An uncaught Python exception escaping `load_index` (any exception other
than the `FileNotFoundError` its handler catches). -/
inductive PyExc where
  | uncaught
deriving DecidableEq, Repr

/-- `EmbeddingManager.load_index`: reads the index file then the metadata
file inside one `try` whose handler catches only `FileNotFoundError`,
resetting `self.index = None` and `self.source_metadata = []`.
`faiss.read_index` raises a faiss `RuntimeError` whether the index file is
missing or corrupt, so either way the exception escapes the handler with
the previous state retained.  Only the metadata read uses the builtin
`open`: a missing metadata file raises a catchable `FileNotFoundError` (and
the handler resets both fields), while a corrupt metadata pickle raises
past the handler after `self.index` has already been replaced.  The pair
returned is the state visible to the caller and the escaped exception, if
any. -/
def load_index (st : EmbState) (target : LoadTarget) : EmbState × Option PyExc :=
  match target.indexFile with
  | FileRead.missing =>
    (st, some PyExc.uncaught)
  | FileRead.corrupt =>
    (st, some PyExc.uncaught)
  | FileRead.ok idx =>
    match target.metadataFile with
    | FileRead.missing =>
      ({ index := none, source_metadata := [] }, none)
    | FileRead.corrupt =>
      ({ st with index := some idx }, some PyExc.uncaught)
    | FileRead.ok md =>
      ({ index := some idx, source_metadata := md }, none)

/-! ## Derived predicates and concrete fixtures -/

/-- The spec's `EvaluationMetrics` invariant: `overall` is the arithmetic
mean of the four sub-scores. -/
def meanInvariant (m : EvaluationMetrics) : Prop :=
  m.overall_score = (m.clarity_score + m.logic_score + m.evidence_score +
    m.persuasiveness_score) / 4

/-- A degenerate embedding collaborator mapping every text to the unit
vector `[1]` (dimension 1), satisfying the §6 contract. -/
def embedOne : List String → List (List ℚ) :=
  fun texts => texts.map fun _ => [1]

/-- Identity in place of `faiss.normalize_L2` (the vectors produced by
`embedOne` are already unit). -/
def idNorm : List ℚ → List ℚ := fun v => v

/-- A single concrete evidence record. -/
def src0 : Source :=
  { url := "https://example.com/a", title := "Title", content := "Content",
    source_type := "news", timestamp := "2024-01-01", relevance_score := 0 }

/-- The index built over the one-record corpus `[src0]`. -/
def builtOne : EmbState :=
  create_index embedOne idNorm initState [src0]

/-- A concrete argument with empty content and no citations. -/
def arg0 : Argument :=
  { stance := "pro", content := "", sources := [], confidence_score := 0,
    citations := [] }

/-- An evidence provider returning nothing for every query. -/
def emptyProvider : String → Nat → List Source := fun _ _ => []

/-- A manager state holding a previously built index over `[src0]`. -/
def oldState : EmbState :=
  { index := some [[1]], source_metadata := [src0] }

/-- A load target whose index file reads fine but whose metadata pickle is
corrupt. -/
def corruptMetaTarget : LoadTarget :=
  { indexFile := FileRead.ok [[2]], metadataFile := FileRead.corrupt }

/-- A load target with no files at all. -/
def missingTarget : LoadTarget :=
  { indexFile := FileRead.missing, metadataFile := FileRead.missing }

/-- A load target whose index file reads fine but whose metadata pickle is
absent: the one shape whose absence raises a catchable `FileNotFoundError`. -/
def missingMetaTarget : LoadTarget :=
  { indexFile := FileRead.ok [[2]], metadataFile := FileRead.missing }

/-! ## Helper lemmas -/

theorem ite_bonus_nonneg {P : Prop} [Decidable P] {x : ℚ} (hx : 0 ≤ x) :
    0 ≤ if P then x else 0 := by
  split
  · exact hx
  · exact le_rfl

theorem min_cap_bounds3 {base x y z : ℚ} (hx : 0 ≤ x) (hy : 0 ≤ y)
    (hz : 0 ≤ z) (hb : base ≤ 1) :
    base ≤ min (base + x + y + z) 1 ∧ min (base + x + y + z) 1 ≤ 1 :=
  ⟨le_min (by linarith) hb, min_le_right _ _⟩

theorem min_cap_bounds2 {base x y : ℚ} (hx : 0 ≤ x) (hy : 0 ≤ y)
    (hb : base ≤ 1) :
    base ≤ min (base + x + y) 1 ∧ min (base + x + y) 1 ≤ 1 :=
  ⟨le_min (by linarith) hb, min_le_right _ _⟩

theorem evaluate_clarity_bounds (content : String) :
    0.5 ≤ evaluate_clarity content ∧ evaluate_clarity content ≤ 1 := by
  unfold evaluate_clarity
  exact min_cap_bounds3 (ite_bonus_nonneg (by norm_num))
    (ite_bonus_nonneg (by norm_num)) (ite_bonus_nonneg (by norm_num))
    (by norm_num)

theorem evaluate_logic_bounds (content : String) :
    0.4 ≤ evaluate_logic content ∧ evaluate_logic content ≤ 1 := by
  unfold evaluate_logic
  exact min_cap_bounds2 (le_min (by positivity) (by norm_num))
    (ite_bonus_nonneg (by norm_num)) (by norm_num)

theorem evaluate_evidence_bounds (argument : Argument) :
    0.3 ≤ evaluate_evidence argument ∧ evaluate_evidence argument ≤ 1 := by
  unfold evaluate_evidence
  exact min_cap_bounds3 (le_min (by positivity) (by norm_num))
    (ite_bonus_nonneg (by norm_num)) (ite_bonus_nonneg (by norm_num))
    (by norm_num)

theorem evaluate_persuasiveness_bounds (content : String) :
    0.4 ≤ evaluate_persuasiveness content ∧
      evaluate_persuasiveness content ≤ 1 := by
  unfold evaluate_persuasiveness
  exact min_cap_bounds3 (le_min (by positivity) (by norm_num))
    (ite_bonus_nonneg (by norm_num)) (ite_bonus_nonneg (by norm_num))
    (by norm_num)

theorem rule_based_fields (argument : Argument) :
    (rule_based_evaluation argument).clarity_score =
        evaluate_clarity argument.content ∧
    (rule_based_evaluation argument).logic_score =
        evaluate_logic argument.content ∧
    (rule_based_evaluation argument).evidence_score =
        evaluate_evidence argument ∧
    (rule_based_evaluation argument).persuasiveness_score =
        evaluate_persuasiveness argument.content ∧
    (rule_based_evaluation argument).overall_score =
      (evaluate_clarity argument.content + evaluate_logic argument.content +
       evaluate_evidence argument + evaluate_persuasiveness argument.content) / 4 :=
  ⟨rfl, rfl, rfl, rfl, rfl⟩

theorem rule_based_meanInvariant (argument : Argument) :
    meanInvariant (rule_based_evaluation argument) := rfl

theorem parse_meanInvariant (evaluation_text : String) :
    meanInvariant (parse_llm_evaluation evaluation_text) := rfl

theorem llm_meanInvariant (llm_response : Option String) (argument : Argument) :
    meanInvariant (llm_evaluation llm_response argument) := by
  cases llm_response with
  | none => exact rule_based_meanInvariant argument
  | some t => exact parse_meanInvariant t

theorem combine_meanInvariant {a b : EvaluationMetrics}
    (ha : meanInvariant a) (hb : meanInvariant b) :
    meanInvariant (combine_scores a b) := by
  unfold meanInvariant at *
  unfold combine_scores
  dsimp only
  rw [ha, hb]
  ring

theorem combine_scores_self (m : EvaluationMetrics) :
    combine_scores m m = m := by
  cases m
  simp only [combine_scores, EvaluationMetrics.mk.injEq]
  exact ⟨by ring, by ring, by ring, by ring, by ring, trivial⟩

/-! ## Claim theorems -/

/-- C3: every `EvaluationMetrics` value the scorer constructs — at the
rule-based stage, at the external-model parsing stage (including the call
failure fallback), and after the 0.4/0.6 blending stage — satisfies
`overall = (clarity + logic + evidenceUse + persuasiveness) / 4` under exact
arithmetic. -/
theorem c3_overall_is_mean (argument : Argument) (llm_response : Option String) :
    meanInvariant (rule_based_evaluation argument) ∧
    meanInvariant (llm_evaluation llm_response argument) ∧
    meanInvariant (combine_scores (rule_based_evaluation argument)
      (llm_evaluation llm_response argument)) :=
  ⟨rule_based_meanInvariant argument,
   llm_meanInvariant llm_response argument,
   combine_meanInvariant (rule_based_meanInvariant argument)
     (llm_meanInvariant llm_response argument)⟩

/-- C7: for every argument each rule-based sub-score lies in `[0, 1]`, and
the rule-based `overall_score` is exactly the arithmetic mean of the four
sub-scores. -/
theorem c7_rule_based_in_range (argument : Argument) :
    (0 ≤ (rule_based_evaluation argument).clarity_score ∧
      (rule_based_evaluation argument).clarity_score ≤ 1) ∧
    (0 ≤ (rule_based_evaluation argument).logic_score ∧
      (rule_based_evaluation argument).logic_score ≤ 1) ∧
    (0 ≤ (rule_based_evaluation argument).evidence_score ∧
      (rule_based_evaluation argument).evidence_score ≤ 1) ∧
    (0 ≤ (rule_based_evaluation argument).persuasiveness_score ∧
      (rule_based_evaluation argument).persuasiveness_score ≤ 1) ∧
    (rule_based_evaluation argument).overall_score =
      ((rule_based_evaluation argument).clarity_score +
       (rule_based_evaluation argument).logic_score +
       (rule_based_evaluation argument).evidence_score +
       (rule_based_evaluation argument).persuasiveness_score) / 4 := by
  obtain ⟨hc1, hc2⟩ := evaluate_clarity_bounds argument.content
  obtain ⟨hl1, hl2⟩ := evaluate_logic_bounds argument.content
  obtain ⟨he1, he2⟩ := evaluate_evidence_bounds argument
  obtain ⟨hp1, hp2⟩ := evaluate_persuasiveness_bounds argument.content
  obtain ⟨hfc, hfl, hfe, hfp, _⟩ := rule_based_fields argument
  rw [hfc, hfl, hfe, hfp]
  exact ⟨⟨by linarith, hc2⟩, ⟨by linarith, hl2⟩, ⟨by linarith, he2⟩,
    ⟨by linarith, hp2⟩, rule_based_meanInvariant argument⟩

/-- C8: with no external scoring collaborator configured (falsy
`self.api_key`), `evaluate_argument` returns the rule-based metrics record
itself — every sub-score, the overall score and the feedback coincide. -/
theorem c8_no_collaborator_identity (argument : Argument)
    (llm_response : Option String) :
    evaluate_argument false llm_response argument =
      rule_based_evaluation argument := rfl

/-- C10: every rule-based sub-score is bounded below by its base value
(0.5 / 0.4 / 0.3 / 0.4), so the rule-based overall score is at least 0.4 and
in particular never 0, for any content and citation list. -/
theorem c10_base_lower_bounds (argument : Argument) :
    0.5 ≤ (rule_based_evaluation argument).clarity_score ∧
    0.4 ≤ (rule_based_evaluation argument).logic_score ∧
    0.3 ≤ (rule_based_evaluation argument).evidence_score ∧
    0.4 ≤ (rule_based_evaluation argument).persuasiveness_score ∧
    0.4 ≤ (rule_based_evaluation argument).overall_score ∧
    (rule_based_evaluation argument).overall_score ≠ 0 := by
  obtain ⟨hc1, _⟩ := evaluate_clarity_bounds argument.content
  obtain ⟨hl1, _⟩ := evaluate_logic_bounds argument.content
  obtain ⟨he1, _⟩ := evaluate_evidence_bounds argument
  obtain ⟨hp1, _⟩ := evaluate_persuasiveness_bounds argument.content
  have ho := rule_based_meanInvariant argument
  obtain ⟨hfc, hfl, hfe, hfp, _⟩ := rule_based_fields argument
  rw [meanInvariant, hfc, hfl, hfe, hfp] at ho
  refine ⟨hfc ▸ hc1, hfl ▸ hl1, hfe ▸ he1, hfp ▸ hp1, ?_, ?_⟩
  · rw [ho]; linarith
  · rw [ho]; intro h0; nlinarith

/-- C4 (amended): when an external scoring collaborator is configured and
its call fails (the `except` branch of `_llm_evaluation`), `evaluate_argument`
returns exactly the rule-based metrics, since blending the rule-based record
with itself is the identity under exact arithmetic and the feedback is taken
from the (rule-based) fallback record. -/
theorem c4_call_failure_falls_back (argument : Argument) :
    evaluate_argument true none argument = rule_based_evaluation argument := by
  show combine_scores (rule_based_evaluation argument)
    (rule_based_evaluation argument) = rule_based_evaluation argument
  exact combine_scores_self _

/-- C4 (counterexample): on a parsing failure — a collaborator response from
which no labelled score parses — the all-defaults parsed record (0.5 in each
field) is still blended 0.4/0.6 with the rule-based record, so
`evaluate_argument` does not return the rule-based metrics: on `arg0` the
blended logic score is `0.4·0.4 + 0.6·0.5 = 0.46`, not `0.4`. -/
theorem c4_parse_failure_keeps_blending :
    evaluate_argument true (some "garbage") arg0 ≠ rule_based_evaluation arg0 := by
  have hcount : (["because", "since", "therefore", "thus", "consequently",
      "as a result"].filter fun w => inStr w (lowerStr "")).length = 0 := by decide
  have hbw : hasBoundedWord (lowerStr "") ["first", "second", "third",
      "finally"] = false := by decide
  have hL : evaluate_logic "" = 0.4 := by
    unfold evaluate_logic
    dsimp only
    rw [hcount, hbw]
    norm_num [min_eq_left, min_eq_right]
  have hparse : searchLabelNum "garbage".toList "Logic:" = none := by decide
  intro h
  have hl := congrArg EvaluationMetrics.logic_score h
  have harg : arg0.content = "" := rfl
  simp only [evaluate_argument, llm_evaluation, combine_scores,
    parse_llm_evaluation, rule_based_evaluation, if_true, harg, hL, hparse,
    Option.getD_none] at hl
  norm_num at hl

/-- C2: when every registered evidence provider yields an empty sequence
for the query (providers that fail contribute an empty sequence themselves,
inside their own retriever), `retrieve_all` returns exactly the two-record
synthetic fallback corpus, every record tagged with the synthetic source
kind (the code's `source_type = "mock"`). -/
theorem c2_collect_empty_fallback
    (search_news search_reddit search_blogs : String → Nat → List Source)
    (query : String) (max_per_source : Nat)
    (hn : search_news query max_per_source = [])
    (hr : search_reddit query max_per_source = [])
    (hb : search_blogs query max_per_source = []) :
    retrieve_all search_news search_reddit search_blogs query max_per_source =
      create_mock_sources query ∧
    (retrieve_all search_news search_reddit search_blogs query
      max_per_source).length = 2 ∧
    ∀ s ∈ retrieve_all search_news search_reddit search_blogs query
      max_per_source, s.source_type = "mock" := by
  have h : retrieve_all search_news search_reddit search_blogs query
      max_per_source = create_mock_sources query := by
    unfold retrieve_all
    rw [hn, hr, hb]
    rfl
  refine ⟨h, by rw [h]; rfl, ?_⟩
  rw [h]
  intro s hs
  simp only [create_mock_sources, List.mem_cons, List.mem_singleton,
    List.not_mem_nil, or_false] at hs
  rcases hs with h1 | h1 <;> subst h1 <;> rfl

/-- C2 witness: three providers that return nothing on the query
`"bitcoin"` with a per-provider limit of 5. -/
theorem c2_collect_empty_fallback_witness :
    retrieve_all emptyProvider emptyProvider emptyProvider "bitcoin" 5 =
      create_mock_sources "bitcoin" ∧
    (retrieve_all emptyProvider emptyProvider emptyProvider "bitcoin"
      5).length = 2 ∧
    ∀ s ∈ retrieve_all emptyProvider emptyProvider emptyProvider "bitcoin" 5,
      s.source_type = "mock" :=
  c2_collect_empty_fallback emptyProvider emptyProvider emptyProvider
    "bitcoin" 5 rfl rfl rfl

/-- C9: `search_similar` on a manager whose index was never built (and not
populated by a load) — `self.index is None` — returns the empty list for
every query and every `top_k`; the model is a total function, so no
exception is raised. -/
theorem c9_search_without_index (embed : List String → List (List ℚ))
    (normalize_L2 : List ℚ → List ℚ) (st : EmbState) (query : String)
    (top_k : Option Nat) (h : st.index = none) :
    search_similar embed normalize_L2 st query top_k = [] := by
  unfold search_similar
  rw [h]

/-- C9 witness: the freshly initialized manager state with a concrete query
and a positive `top_k`. -/
theorem c9_search_without_index_witness :
    initState.index = none ∧
    search_similar embedOne idNorm initState "bitcoin" (some 3) = [] :=
  ⟨rfl, c9_search_without_index embedOne idNorm initState "bitcoin" (some 3) rfl⟩

/-- C5 (amended): the only target shape `load_index` recovers from is a
readable index file with an absent metadata pickle — there the builtin
`open` raises `FileNotFoundError`, the handler catches it, and the manager
is reset to the empty state (no vectors, no records) with nothing raised to
the caller. -/
theorem c5_load_missing_metadata_resets (st : EmbState) (target : LoadTarget)
    (h : ∃ v, target.indexFile = FileRead.ok v ∧
      target.metadataFile = FileRead.missing) :
    load_index st target = ({ index := none, source_metadata := [] }, none) := by
  obtain ⟨tif, tmf⟩ := target
  obtain ⟨v, hv, hm⟩ := h
  cases hv
  cases hm
  rfl

/-- C5 witness: loading a target whose metadata pickle is absent from a
state that held an old index. -/
theorem c5_load_missing_metadata_resets_witness :
    load_index oldState missingMetaTarget =
      ({ index := none, source_metadata := [] }, none) :=
  c5_load_missing_metadata_resets oldState missingMetaTarget ⟨[[2]], rfl, rfl⟩

/-- C5 (counterexample): both a corrupt and a missing target violate the
claim.  With a readable index file but a corrupt metadata pickle,
`faiss.read_index` has already replaced `self.index` when `pickle.load`
raises an exception that is not a `FileNotFoundError`: the exception escapes
to the caller and the state left behind pairs the new vectors with the old
records — not the empty state.  With a wholly missing target,
`faiss.read_index` raises a faiss `RuntimeError` (not `FileNotFoundError`),
which also escapes the handler, retaining the old, non-empty state. -/
theorem c5_load_corrupt_partial_and_raises :
    load_index oldState corruptMetaTarget =
      ({ index := some [[2]], source_metadata := [src0] }, some PyExc.uncaught) ∧
    (load_index oldState corruptMetaTarget).2 ≠ none ∧
    (load_index oldState corruptMetaTarget).1 ≠
      { index := none, source_metadata := [] } ∧
    (load_index oldState corruptMetaTarget).1 ≠ oldState ∧
    load_index oldState missingTarget = (oldState, some PyExc.uncaught) ∧
    (load_index oldState missingTarget).1.index ≠ none := by
  refine ⟨rfl, by decide, ?_, ?_, rfl, ?_⟩
  · intro h
    exact Option.noConfusion (congrArg EmbState.index h)
  · intro h
    have h2 := congrArg EmbState.index h
    simp only [load_index, oldState, corruptMetaTarget, Option.some.injEq] at h2
    have h3 := congrArg (fun l => l.headD ([] : List ℚ)) h2
    simp only [List.headD_cons] at h3
    have h4 := congrArg (fun l => l.headD (0 : ℚ)) h3
    simp only [List.headD_cons] at h4
    norm_num at h4
  · intro h
    exact Option.noConfusion h

/-- C6 (amended): `create_index` performs no emptiness check and cannot
signal `InvalidInput` (the code contains no raise at all): applied to an
empty sequence of records, with the embedding collaborator honouring its §6
contract (one vector per input text, so an empty batch for an empty input),
it succeeds and installs an index holding zero vectors over empty
metadata. -/
theorem c6_empty_build_succeeds (embed : List String → List (List ℚ))
    (normalize_L2 : List ℚ → List ℚ) (st : EmbState)
    (h : embed [] = []) :
    create_index embed normalize_L2 st [] =
      { index := some [], source_metadata := [] } := by
  unfold create_index
  dsimp only [List.map_nil]
  rw [h]
  rfl

/-- C6 witness: the concrete collaborator `embedOne` on the empty corpus. -/
theorem c6_empty_build_succeeds_witness :
    embedOne [] = [] ∧
    create_index embedOne idNorm initState [] =
      { index := some [], source_metadata := [] } :=
  ⟨rfl, c6_empty_build_succeeds embedOne idNorm initState rfl⟩

/-- C6 (counterexample): building on the empty corpus does not fail with
`InvalidInput` (or any error): it returns the replaced state unchanged in
type and content — an empty index — contradicting the claim that the empty
corpus is rejected as a caller error. -/
theorem c6_empty_build_no_invalid_input :
    create_index embedOne idNorm oldState [] =
      { index := some [], source_metadata := [] } ∧
    (create_index embedOne idNorm oldState []).index ≠ none := by
  refine ⟨rfl, ?_⟩
  intro h
  exact Option.noConfusion h

/-- C1: evaluation of `search_similar` at the failing input — an index built
over a single record queried with `top_k = 5`.  faiss pads the missing hits
with label `-1` and similarity `-FLT_MAX`; the guard
`idx < len(self.source_metadata)` accepts `-1` (it only checks the upper
bound) and `self.source_metadata[-1]` wraps around to the last record, so
the call returns five entries: the real hit followed by four copies of the
same single record carrying the sentinel similarity — more items than the
corpus holds, duplicated records, and relevance scores outside `[-1, 1]`,
contrary to the claim. -/
theorem c1_search_pads_and_duplicates :
    search_similar embedOne idNorm builtOne "btc" (some 5) =
      [{ src0 with relevance_score := 1 },
       { src0 with relevance_score := -FLT_MAX },
       { src0 with relevance_score := -FLT_MAX },
       { src0 with relevance_score := -FLT_MAX },
       { src0 with relevance_score := -FLT_MAX }] ∧
    builtOne.source_metadata.length = 1 ∧
    (search_similar embedOne idNorm builtOne "btc" (some 5)).length = 5 ∧
    ¬ (search_similar embedOne idNorm builtOne "btc" (some 5)).Nodup ∧
    ∃ s ∈ search_similar embedOne idNorm builtOne "btc" (some 5),
      s.relevance_score < -1 := by
  have hsearch : search_similar embedOne idNorm builtOne "btc" (some 5) =
      [{ src0 with relevance_score := 1 },
       { src0 with relevance_score := -FLT_MAX },
       { src0 with relevance_score := -FLT_MAX },
       { src0 with relevance_score := -FLT_MAX },
       { src0 with relevance_score := -FLT_MAX }] := by
    norm_num [search_similar, builtOne, create_index, initState, embedOne,
      idNorm, faissSearch, dotp, List.enum, List.replicate_succ, pyIndex]
  refine ⟨hsearch, rfl, by rw [hsearch]; rfl, ?_, ?_⟩
  · rw [hsearch]
    intro hnd
    have h12 := List.Pairwise.tail hnd
    exact (List.rel_of_pairwise_cons h12 (List.mem_cons_self _ _)) rfl
  · refine ⟨{ src0 with relevance_score := -FLT_MAX }, ?_, ?_⟩
    · rw [hsearch]
      exact List.mem_cons_of_mem _ (List.mem_cons_self _ _)
    · norm_num [FLT_MAX, src0]
